import Mathlib

/-!
# Verification of the AI-CS-Chatbot conversation/retrieval core

Shallow embedding of the conversation-and-retrieval orchestration layer of the chatbot
layer (`cs_chatbot_v1.1/services/conversation_service.py`,
`cs_chatbot_v1.1/app.py`, `cs_chatbot_v1.1/basic_metrics.py` together with the
metrics code stored in `INFRASTRUCTURE/VALIDATION`, and the v1.0 metrics in
`cs_chatbot_v1.0/basic_metrics.py`).

Python strings are Lean `String`s; Python lists are Lean `List`s (in-place
`append` becomes a returned list with the element added at the end); Python
floats are modelled as exact rationals `ℚ`; the tiktoken tokenizer and the
external collaborators (vector retriever, OpenAI completion call) are
parameters of the embedded functions; `datetime.now()` timestamps are a
parameter.  Python truthiness tests (`if relevant_knowledge:`,
`if conversation_messages else 0`) are modelled exactly: `None` and the empty
string / empty list are falsy.
-/

/-- A chat message: one `{"role": ..., "content": ...}` dict of the Python code. -/
structure Message where
  role : String
  content : String
deriving Repr, DecidableEq

/-- Python `str.lower()` (ASCII case folding; the embedded word lists are
already lower-case so this is exact on them). -/
def pyLower (s : String) : String := ⟨s.data.map Char.toLower⟩

/-- Python `str.strip()`: trim whitespace at both ends. -/
def pyStrip (s : String) : String :=
  ⟨((s.data.dropWhile Char.isWhitespace).reverse.dropWhile Char.isWhitespace).reverse⟩

/-- Python substring test `sub in s`. -/
def strContains (s sub : String) : Bool := decide (sub.data <:+: s.data)

/-- List `german_indicators` of `needs_rag_retrieval`. -/
def german_indicators : List String :=
  ["was", "wie", "warum", "wo", "wann", "welche", "welcher", "welches",
   "ich brauche", "ich suche", "suche nach", "zeig mir", "zeige mir",
   "empfehlung", "empfiehl", "kaufen", "möchte", "will haben",
   "gibt es", "haben sie", "können sie", "kannst du"]

/-- List `english_indicators` of `needs_rag_retrieval`. -/
def english_indicators : List String :=
  ["what", "how", "why", "where", "when", "which", "who",
   "i need", "i want", "looking for", "show me", "recommend",
   "buy", "purchase", "do you have", "can you", "is there"]

/-- List `product_indicators` of `needs_rag_retrieval`. -/
def product_indicators : List String :=
  ["laptop", "smartphone", "tablet", "monitor", "computer", "gaming",
   "programming", "tech", "device", "machine", "electronic", "homeoffice"]

/-- Function `needs_rag_retrieval` from `conversation_service.py`: question mark in the
raw query, or any indicator word contained (as a substring) in the
lower-cased, stripped query. -/
def needs_rag_retrieval (user_query : String) : Bool :=
  let query_lower := pyStrip (pyLower user_query)
  strContains user_query "?" ||
  german_indicators.any (fun word => strContains query_lower word) ||
  english_indicators.any (fun word => strContains query_lower word) ||
  product_indicators.any (fun word => strContains query_lower word)

/-- One entry of the `empty_retrieval_queries_v1_1` log:
`{"query": ..., "timestamp": ...}`. -/
structure QueryEntry where
  query : String
  timestamp : String
deriving Repr, DecidableEq

/-- The persistent v1.1 metrics record (`DEFAULT_METRICS_STRUCTURE` keys of
`cs_chatbot_v1.1/basic_metrics.py`; the `last_updated` bookkeeping string is
not modelled).  Floats are modelled as exact rationals. -/
structure MetricsData where
  total_requests : ℕ
  successful_requests : ℕ
  total_response_time : ℚ
  total_conversation_tokens : ℕ
  total_context_tokens : ℕ
  total_cost : ℚ
  empty_retrieval_count : ℕ
  empty_retrieval_queries : List QueryEntry
deriving Repr, DecidableEq

/-- Constant `DEFAULT_METRICS_STRUCTURE`: the all-zero state a fresh metrics file gets. -/
def defaultMetrics : MetricsData :=
  { total_requests := 0, successful_requests := 0, total_response_time := 0,
    total_conversation_tokens := 0, total_context_tokens := 0, total_cost := 0,
    empty_retrieval_count := 0, empty_retrieval_queries := [] }

/-- Function `calculate_static_prompts_tokens_v1_1`: tokenize the concatenation of the
first two messages; any failure (fewer than two messages) yields 0.  The
tiktoken encoder is the parameter `tok`. -/
def calculate_static_prompts_tokens_v1_1 (tok : String → ℕ) (conversation_messages : List Message) : ℕ :=
  match conversation_messages with
  | m0 :: m1 :: _ => tok (m0.content ++ m1.content)
  | _ => 0

/-- Function `calculate_rag_tokens_v1_1`: tokenize the retrieved-knowledge string. -/
def calculate_rag_tokens_v1_1 (tok : String → ℕ) (rag_content : String) : ℕ :=
  tok rag_content

/-- Function `track_metrics_v1_1` of `INFRASTRUCTURE/VALIDATION`: load-modify-save on
the metrics record.  `conversation_messages` and `rag_content` are optional
and tested for Python truthiness (`None`, the empty list and the empty string
are all falsy). -/
def track_metrics_v1_1 (tok : String → ℕ) (response_time : ℚ) (conversation_tokens : ℕ)
    (conversation_messages : Option (List Message)) (rag_content : Option String)
    (success : Bool) (data : MetricsData) : MetricsData :=
  let data := { data with total_requests := data.total_requests + 1 }
  if success then
    let static_tokens : ℕ :=
      match conversation_messages with
      | some ms => if ms.isEmpty then 0 else calculate_static_prompts_tokens_v1_1 tok ms
      | none => 0
    let rag_tokens : ℕ :=
      match rag_content with
      | some s => if s.isEmpty then 0 else calculate_rag_tokens_v1_1 tok s
      | none => 0
    let context_tokens := static_tokens + rag_tokens
    let cost : ℚ := ((conversation_tokens : ℚ) / 1000000) * ((0.150 + 0.600) / 2)
    { data with
      successful_requests := data.successful_requests + 1,
      total_conversation_tokens := data.total_conversation_tokens + conversation_tokens,
      total_response_time := data.total_response_time + response_time,
      total_context_tokens := data.total_context_tokens + context_tokens,
      total_cost := data.total_cost + cost }
  else
    data

/-- Function `track_empty_retrieval_v1_1`: increment the counter, append the
`{query, timestamp}` entry, keep only the last 1000 entries
(Python `lst[-1000:]` once the length exceeds 1000). -/
def track_empty_retrieval_v1_1 (user_query timestamp : String) (data : MetricsData) : MetricsData :=
  let qs := data.empty_retrieval_queries ++ [⟨user_query, timestamp⟩]
  let qs := if qs.length > 1000 then qs.drop (qs.length - 1000) else qs
  { data with
    empty_retrieval_count := data.empty_retrieval_count + 1,
    empty_retrieval_queries := qs }

/-- Round-half-to-even on a rational, the Python rounding mode for `round`. -/
def roundHalfEven (q : ℚ) : ℤ :=
  let f := ⌊q⌋
  let r := q - (f : ℚ)
  if r < 1 / 2 then f
  else if 1 / 2 < r then f + 1
  else if f % 2 = 0 then f else f + 1

/-- Python `round(x, d)` modelled over exact rationals. -/
def pyRound (q : ℚ) (d : ℕ) : ℚ := (roundHalfEven (q * 10 ^ d) : ℚ) / 10 ^ d

/-- The dictionary returned by `get_metrics_summary_v1_1`. -/
structure MetricsSummary where
  total_requests : ℕ
  average_response_time : ℚ
  success_rate : ℚ
  average_tokens_per_conversation : ℚ
  average_context_size : ℚ
  average_cost_per_conversation : ℚ
  empty_retrieval_count : ℕ
  empty_retrieval_queries : List QueryEntry
deriving Repr, DecidableEq

/-- Function `get_metrics_summary_v1_1`: derive the averaged report from the stored
accumulators; every average is 0 when there is no successful request yet. -/
def get_metrics_summary_v1_1 (data : MetricsData) : MetricsSummary :=
  let total_requests := data.total_requests
  let successful_requests := data.successful_requests
  if 0 < successful_requests then
    { total_requests := total_requests,
      average_response_time := pyRound (data.total_response_time / (successful_requests : ℚ)) 2,
      success_rate := pyRound (((successful_requests : ℚ) / (total_requests : ℚ)) * 100) 1,
      average_tokens_per_conversation :=
        pyRound ((data.total_conversation_tokens : ℚ) / (successful_requests : ℚ)) 1,
      average_context_size := pyRound ((data.total_context_tokens : ℚ) / (successful_requests : ℚ)) 1,
      average_cost_per_conversation := pyRound (data.total_cost / (successful_requests : ℚ)) 6,
      empty_retrieval_count := data.empty_retrieval_count,
      empty_retrieval_queries := data.empty_retrieval_queries }
  else
    { total_requests := total_requests,
      average_response_time := 0, success_rate := 0,
      average_tokens_per_conversation := 0, average_context_size := 0,
      average_cost_per_conversation := 0,
      empty_retrieval_count := data.empty_retrieval_count,
      empty_retrieval_queries := data.empty_retrieval_queries }

/-- Python `int(q)` for a rational: truncation toward zero. -/
def pyTruncToInt (q : ℚ) : ℤ := if 0 ≤ q then ⌊q⌋ else ⌈q⌉

/-- The v1.0 Redis counters used by `cs_chatbot_v1.0/basic_metrics.py`
(absent keys read as 0, matching `int(r.get(...) or 0)`). -/
structure MetricsV10 where
  total_succ_requests : ℕ
  total_tokens : ℕ
  total_response_time_ms : ℤ
  failed_requests : ℕ
deriving Repr, DecidableEq

/-- The all-zero v1.0 counter state (no Redis keys yet). -/
def defaultMetricsV10 : MetricsV10 :=
  { total_succ_requests := 0, total_tokens := 0, total_response_time_ms := 0,
    failed_requests := 0 }

/-- Function `track_metrics` of `cs_chatbot_v1.0/basic_metrics.py`: Redis counter
increments (response time stored as `int(response_time * 1000)` ms). -/
def track_metrics (response_time : ℚ) (tokens_used : ℕ) (success : Bool)
    (r : MetricsV10) : MetricsV10 :=
  if success then
    { r with
      total_succ_requests := r.total_succ_requests + 1,
      total_tokens := r.total_tokens + tokens_used,
      total_response_time_ms := r.total_response_time_ms + pyTruncToInt (response_time * 1000) }
  else
    { r with failed_requests := r.failed_requests + 1 }

/-- The dictionary returned by the v1.0 `get_metrics_summary`
(the `total_context_tokens_v1_0` global is not needed by any claim and is
kept out of the record). -/
structure MetricsSummaryV10 where
  total_succ_requests : ℕ
  total_tokens : ℕ
  failed_requests : ℕ
  avg_tokens_per_request : ℚ
  avg_response_time_seconds : ℚ
  success_rate_percent : ℚ
  avg_cost_per_conversation : ℚ
deriving Repr, DecidableEq

/-- Function `get_metrics_summary` of `cs_chatbot_v1.0/basic_metrics.py`: the average
cost is derived from the (unrounded) average token count at summary time. -/
def get_metrics_summary (r : MetricsV10) : MetricsSummaryV10 :=
  if 0 < r.total_succ_requests then
    let n : ℚ := (r.total_succ_requests : ℚ)
    let avg_tokens : ℚ := (r.total_tokens : ℚ) / n
    let avg_response_time : ℚ := ((r.total_response_time_ms : ℚ) / n) / 1000
    let success_rate : ℚ := (n / (n + (r.failed_requests : ℚ))) * 100
    let avg_cost : ℚ := (avg_tokens / 1000000) * ((0.150 + 0.600) / 2)
    { total_succ_requests := r.total_succ_requests,
      total_tokens := r.total_tokens,
      failed_requests := r.failed_requests,
      avg_tokens_per_request := pyRound avg_tokens 1,
      avg_response_time_seconds := pyRound avg_response_time 2,
      success_rate_percent := pyRound success_rate 1,
      avg_cost_per_conversation := pyRound avg_cost 6 }
  else
    { total_succ_requests := r.total_succ_requests,
      total_tokens := r.total_tokens,
      failed_requests := r.failed_requests,
      avg_tokens_per_request := 0, avg_response_time_seconds := 0,
      success_rate_percent := 0, avg_cost_per_conversation := 0 }

/-- Method `ConversationService.initialize_conversation`: seed a fresh conversation
with the two static system prompts.  `prompts` is the loaded prompt
dictionary, indexed by file name. -/
def initialize_conversation (prompts : String → String) : List Message :=
  [⟨"system", prompts "sys_prompt.txt"⟩,
   ⟨"system", prompts "behaviour_guidelines.txt"⟩]

/-- Result of one `build_conversation_with_context` call: the updated
conversation list, the `self.rag_content` field after the call, and the
metrics store after any `track_empty_retrieval_v1_1` side effect. -/
structure BuildResult where
  conversation : List Message
  rag_content : Option String
  metrics : MetricsData
deriving Repr, DecidableEq

/-- Method `ConversationService.build_conversation_with_context`: append the user
message; when the retrieval gate fires, query the retriever (`retrieve`
models `RAGService.get_relevant_knowledge`, returning `none` for Python
`None`); a truthy result is appended as a system message and remembered in
`rag_content`, a falsy one (`None` or an empty string) records an
empty-retrieval event. -/
def build_conversation_with_context (retrieve : String → Option String) (now : String)
    (metrics : MetricsData) (conversation : List Message) (user_message : String) :
    BuildResult :=
  let conversation := conversation ++ [⟨"user", user_message⟩]
  if needs_rag_retrieval user_message then
    match retrieve user_message with
    | some relevant_knowledge =>
      if relevant_knowledge.isEmpty then
        { conversation := conversation, rag_content := none,
          metrics := track_empty_retrieval_v1_1 user_message now metrics }
      else
        { conversation := conversation ++ [⟨"system", relevant_knowledge⟩],
          rag_content := some relevant_knowledge, metrics := metrics }
    | none =>
      { conversation := conversation, rag_content := none,
        metrics := track_empty_retrieval_v1_1 user_message now metrics }
  else
    { conversation := conversation, rag_content := none, metrics := metrics }

/-- Method `ConversationService.add_assistant_response`: append the assistant turn. -/
def add_assistant_response (conversation : List Message) (ai_response : String) : List Message :=
  conversation ++ [⟨"assistant", ai_response⟩]

/-- Outcome of the OpenAI `chat.completions.create` call: generated text plus
`usage.total_tokens`, with the caller-measured wall time, or an exception. -/
inductive CompletionOutcome where
  | success (text : String) (total_tokens : ℕ) (elapsed : ℚ)
  | failure
deriving Repr, DecidableEq

/-- Method `ConversationService.get_ai_response`: on success, track a successful
request (passing the full message list and the stored `rag_content`) and
return the text; on failure, track a failed request and re-raise (the
`Except.error` carries the metrics state after the failure tracking). -/
def get_ai_response (tok : String → ℕ) (complete : List Message → CompletionOutcome)
    (metrics : MetricsData) (messages : List Message) (rag_content : Option String) :
    Except MetricsData (String × MetricsData) :=
  match complete messages with
  | .success text total_tokens elapsed =>
    .ok (text, track_metrics_v1_1 tok elapsed total_tokens (some messages) rag_content true metrics)
  | .failure =>
    .error (track_metrics_v1_1 tok 0 0 none none false metrics)

/-- The external collaborators a chat turn depends on: the loaded prompts,
the retriever, the completion provider, the tokenizer and the clock. -/
structure ChatEnv where
  prompts : String → String
  retrieve : String → Option String
  complete : List Message → CompletionOutcome
  tok : String → ℕ
  now : String

/-- Server-side state surviving between turns: the stored session
conversation (if any) and the persisted metrics record. -/
structure ChatState where
  sessionMessages : Option (List Message)
  metrics : MetricsData
deriving Repr, DecidableEq

/-- What the `/chat` POST handler returns to the caller. -/
inductive ChatResult where
  | reply (text : String)
  | messageTooLong
  | serviceUnavailable
deriving Repr, DecidableEq

/-- One POST turn of the v1.1 `chat` route (`cs_chatbot_v1.1/app.py`):
length check, lazy conversation initialization, context assembly, completion
call, assistant append, session save.  A completion failure bubbles up to
`handle_internal_error`, which tracks a failed request a second time
(`track_metrics_v1_1(0, 0, 0, success=False)` — the third positional `0` is a
falsy `conversation_messages`) and answers "Service temporarily unavailable";
the user (and any retrieval) message appended in place by
`build_conversation_with_context` stays in the session list that is persisted
at request teardown. -/
def chat (env : ChatEnv) (st : ChatState) (user_message : String) :
    ChatResult × ChatState :=
  if user_message.length > 1000 then
    (.messageTooLong, st)
  else
    let conv0 : List Message :=
      match st.sessionMessages with
      | some ms => ms
      | none => initialize_conversation env.prompts
    let br := build_conversation_with_context env.retrieve env.now st.metrics conv0 user_message
    match get_ai_response env.tok env.complete br.metrics br.conversation br.rag_content with
    | .ok (ai_response, m1) =>
      let updated_messages := add_assistant_response br.conversation ai_response
      (.reply ai_response, { sessionMessages := some updated_messages, metrics := m1 })
    | .error m1 =>
      let m2 := track_metrics_v1_1 env.tok 0 0 (some []) none false m1
      (.serviceUnavailable, { sessionMessages := some br.conversation, metrics := m2 })

/-- The retrieval-gate condition transcribed from the wording of the spec: a
question mark in the utterance, or any word of the fixed multilingual
indicator lists (the three lists pooled) contained in the case-folded
utterance.  Kept separate from `needs_rag_retrieval` so the two can be
compared. -/
def needsRetrievalSpec (u : String) : Bool :=
  strContains u "?" ||
  (german_indicators ++ english_indicators ++ product_indicators).any
    (fun word => strContains (pyStrip (pyLower u)) word)

/-- One `build_conversation_with_context` call appends the user message and
then at most one retrieval system message. -/
lemma build_conversation_cases (retrieve : String → Option String) (now : String)
    (m : MetricsData) (conv : List Message) (u : String) :
    (build_conversation_with_context retrieve now m conv u).conversation
        = conv ++ [⟨"user", u⟩] ∨
    ∃ k, (build_conversation_with_context retrieve now m conv u).conversation
        = conv ++ [⟨"user", u⟩, ⟨"system", k⟩] := by
  unfold build_conversation_with_context
  split
  · split
    · split
      · left; rfl
      · right
        rename_i k heq hne
        exact ⟨k, by simp⟩
    · left; rfl
  · left; rfl

/-- The input conversation is an unchanged prefix of the assembled one. -/
lemma build_conversation_prefix (retrieve : String → Option String) (now : String)
    (m : MetricsData) (conv : List Message) (u : String) :
    conv <+: (build_conversation_with_context retrieve now m conv u).conversation := by
  rcases build_conversation_cases retrieve now m conv u with h | ⟨k, h⟩ <;>
    rw [h] <;> exact List.prefix_append _ _

/-- Closed form of the query log after one `track_empty_retrieval_v1_1` call. -/
lemma track_empty_retrieval_queries_eq (e : QueryEntry) (d : MetricsData) :
    (track_empty_retrieval_v1_1 e.query e.timestamp d).empty_retrieval_queries
      = (d.empty_retrieval_queries ++ [e]).drop
          ((d.empty_retrieval_queries.length + 1) - 1000) := by
  obtain ⟨q, ts⟩ := e
  unfold track_empty_retrieval_v1_1
  dsimp only
  split
  · rename_i h
    simp only [List.length_append, List.length_cons, List.length_nil, Nat.zero_add]
  · rename_i h
    rw [List.length_append, List.length_cons, List.length_nil] at h
    have h0 : d.empty_retrieval_queries.length + 1 - 1000 = 0 := by omega
    simp [h0]

/-- The empty-retrieval counter increments by one per call. -/
lemma track_empty_retrieval_count_eq (q ts : String) (d : MetricsData) :
    (track_empty_retrieval_v1_1 q ts d).empty_retrieval_count
      = d.empty_retrieval_count + 1 := rfl

/-- Folding `track_empty_retrieval_v1_1` over a list of entries from a state
whose log is within capacity keeps exactly the most recent 1000 entries, in
arrival order, and counts every call. -/
lemma track_empty_retrieval_foldl (entries : List QueryEntry) (d : MetricsData)
    (hL : d.empty_retrieval_queries.length ≤ 1000) :
    ((entries.foldl (fun acc e => track_empty_retrieval_v1_1 e.query e.timestamp acc) d).empty_retrieval_queries
        = (d.empty_retrieval_queries ++ entries).drop
            ((d.empty_retrieval_queries.length + entries.length) - 1000)) ∧
    (entries.foldl (fun acc e => track_empty_retrieval_v1_1 e.query e.timestamp acc) d).empty_retrieval_count
        = d.empty_retrieval_count + entries.length := by
  induction entries generalizing d with
  | nil =>
    refine ⟨?_, by simp⟩
    have h0 : d.empty_retrieval_queries.length + ([] : List QueryEntry).length - 1000 = 0 := by
      simp only [List.length_nil]
      omega
    rw [List.foldl_nil, h0, List.drop_zero, List.append_nil]
  | cons e es ih =>
    have hq : (track_empty_retrieval_v1_1 e.query e.timestamp d).empty_retrieval_queries
        = (d.empty_retrieval_queries ++ [e]).drop
            ((d.empty_retrieval_queries.length + 1) - 1000) :=
      track_empty_retrieval_queries_eq e d
    have hlen : (track_empty_retrieval_v1_1 e.query e.timestamp d).empty_retrieval_queries.length
        = (d.empty_retrieval_queries.length + 1)
            - ((d.empty_retrieval_queries.length + 1) - 1000) := by
      rw [hq, List.length_drop, List.length_append, List.length_cons, List.length_nil,
        Nat.zero_add]
    have hlen' : (track_empty_retrieval_v1_1 e.query e.timestamp d).empty_retrieval_queries.length ≤ 1000 := by
      rw [hlen]; omega
    obtain ⟨ihq, ihc⟩ := ih (track_empty_retrieval_v1_1 e.query e.timestamp d) hlen'
    constructor
    · rw [List.foldl_cons, ihq, hlen, hq]
      have hk : (d.empty_retrieval_queries.length + 1) - 1000
          ≤ (d.empty_retrieval_queries ++ [e]).length := by
        rw [List.length_append, List.length_cons, List.length_nil, Nat.zero_add]
        omega
      rw [← List.drop_append_of_le_length hk, List.drop_drop, List.append_assoc,
        List.singleton_append]
      have hidx : (d.empty_retrieval_queries.length + 1 - 1000)
            + ((d.empty_retrieval_queries.length + 1
                - (d.empty_retrieval_queries.length + 1 - 1000)) + es.length - 1000)
          = d.empty_retrieval_queries.length + (e :: es).length - 1000 := by
        rw [List.length_cons]
        omega
      rw [hidx]
    · rw [List.foldl_cons, ihc, track_empty_retrieval_count_eq, List.length_cons]
      omega

/-- Folding successful `track_metrics_v1_1` calls accumulates the success
count and the per-turn costs. -/
lemma foldl_track_v11_totals (tok : String → ℕ) (ts : List ℕ) (d : MetricsData) :
    ((ts.foldl (fun acc t => track_metrics_v1_1 tok 0 t none none true acc) d).successful_requests
        = d.successful_requests + ts.length) ∧
    ((ts.foldl (fun acc t => track_metrics_v1_1 tok 0 t none none true acc) d).total_cost
        = d.total_cost + ((ts.sum : ℚ) / 1000000) * ((0.150 + 0.600) / 2)) := by
  induction ts generalizing d with
  | nil => simp
  | cons t tr ih =>
    obtain ⟨ih1, ih2⟩ := ih (track_metrics_v1_1 tok 0 t none none true d)
    constructor
    · rw [List.foldl_cons, ih1]
      show (d.successful_requests + 1) + tr.length = d.successful_requests + (t :: tr).length
      rw [List.length_cons]
      omega
    · rw [List.foldl_cons, ih2]
      show (d.total_cost + ((t : ℚ) / 1000000) * ((0.150 + 0.600) / 2))
          + (((tr.sum : ℚ)) / 1000000) * ((0.150 + 0.600) / 2)
        = d.total_cost + (((t :: tr).sum : ℚ) / 1000000) * ((0.150 + 0.600) / 2)
      rw [List.sum_cons]
      push_cast
      ring

/-- Folding successful v1.0 `track_metrics` calls accumulates the success
count and the token total. -/
lemma foldl_track_v10_totals (ts : List ℕ) (r : MetricsV10) :
    ((ts.foldl (fun acc t => track_metrics 0 t true acc) r).total_succ_requests
        = r.total_succ_requests + ts.length) ∧
    ((ts.foldl (fun acc t => track_metrics 0 t true acc) r).total_tokens
        = r.total_tokens + ts.sum) := by
  induction ts generalizing r with
  | nil => simp
  | cons t tr ih =>
    obtain ⟨ih1, ih2⟩ := ih (track_metrics 0 t true r)
    constructor
    · rw [List.foldl_cons, ih1]
      show (r.total_succ_requests + 1) + tr.length = r.total_succ_requests + (t :: tr).length
      rw [List.length_cons]
      omega
    · rw [List.foldl_cons, ih2]
      show (r.total_tokens + t) + tr.sum = r.total_tokens + (t :: tr).sum
      rw [List.sum_cons]
      omega

/-- In a turn with no stored conversation, whatever the completion outcome,
the persisted conversation starts with the two static system prompts. -/
lemma chat_fresh_session_take_two :
    ∀ (env : ChatEnv) (m : MetricsData) (u : String), u.length ≤ 1000 →
      (((chat env ⟨none, m⟩ u).2.sessionMessages).getD []).take 2
        = [⟨"system", env.prompts "sys_prompt.txt"⟩,
           ⟨"system", env.prompts "behaviour_guidelines.txt"⟩] := by
  intro env m u hlen
  unfold chat
  rw [if_neg (by omega)]
  dsimp only
  obtain h | ⟨k, h⟩ := build_conversation_cases env.retrieve env.now m
      (initialize_conversation env.prompts) u <;>
  · cases hres : get_ai_response env.tok env.complete
        (build_conversation_with_context env.retrieve env.now m
          (initialize_conversation env.prompts) u).metrics
        (build_conversation_with_context env.retrieve env.now m
          (initialize_conversation env.prompts) u).conversation
        (build_conversation_with_context env.retrieve env.now m
          (initialize_conversation env.prompts) u).rag_content with
    | ok p =>
      obtain ⟨text, m1⟩ := p
      simp only [hres, Option.getD_some]
      rw [add_assistant_response, h]
      rfl
    | error m1 =>
      simp only [hres, Option.getD_some]
      rw [h]
      rfl

/-- A sample collaborator environment: retrieval always empty, completion
provider always failing. -/
def downEnv : ChatEnv :=
  { prompts := fun _ => "P", retrieve := fun _ => none,
    complete := fun _ => .failure, tok := String.length, now := "t0" }

/-- A fresh server-side state: no stored conversation, all-zero metrics. -/
def freshState : ChatState := { sessionMessages := none, metrics := defaultMetrics }

/-- A 1001-character utterance. -/
def longMessage : String := ⟨List.replicate 1001 'a'⟩

/-- A 1000-character utterance. -/
def okMessage : String := ⟨List.replicate 1000 'a'⟩

/-- A sample collaborator environment whose retriever always finds knowledge
and whose completion provider always succeeds. -/
def ragEnv : ChatEnv :=
  { prompts := fun _ => "P", retrieve := fun _ => some "KNOWLEDGE",
    complete := fun _ => .success "Sure!" 50 1, tok := String.length, now := "t0" }

/-- A session state that already holds the two static system prompts. -/
def ragState : ChatState :=
  { sessionMessages := some [⟨"system", "S1"⟩, ⟨"system", "S2"⟩],
    metrics := defaultMetrics }

/-- **C1 (counterexample)**: contrary to the claim that the retrieved-knowledge
system message is not persisted, a concrete turn whose retrieval produced a
knowledge message saves that very message back into the session store: the
canonical conversation persisted after the turn contains the retrieval system
message between the user and assistant turns. -/
theorem rag_message_is_persisted_counterexample :
    (chat ragEnv ragState "Do you have laptops?").2.sessionMessages
      = some [⟨"system", "S1"⟩, ⟨"system", "S2"⟩, ⟨"user", "Do you have laptops?"⟩,
              ⟨"system", "KNOWLEDGE"⟩, ⟨"assistant", "Sure!"⟩] ∧
    Message.mk "system" "KNOWLEDGE"
      ∈ ((chat ragEnv ragState "Do you have laptops?").2.sessionMessages).getD [] := by
  constructor
  · rfl
  · decide

/-- **C1 (amended)**: for every turn in which retrieval produced a
retrieved-knowledge system message, that message is present in the message
sequence sent to the completion call AND it is persisted as part of the
canonical conversation saved back to the session store: the saved
conversation is the prior history followed by the user message, the
retrieved-knowledge system message and the assistant message. -/
theorem rag_message_sent_and_persisted :
    ∀ (env : ChatEnv) (st : ChatState) (conv0 : List Message) (u k text : String)
      (tokens : ℕ) (elapsed : ℚ),
      st.sessionMessages = some conv0 →
      u.length ≤ 1000 →
      needs_rag_retrieval u = true →
      env.retrieve u = some k →
      k.isEmpty = false →
      env.complete (conv0 ++ [⟨"user", u⟩, ⟨"system", k⟩]) = .success text tokens elapsed →
      (build_conversation_with_context env.retrieve env.now st.metrics conv0 u).conversation
          = conv0 ++ [⟨"user", u⟩, ⟨"system", k⟩] ∧
      (chat env st u).1 = .reply text ∧
      (chat env st u).2.sessionMessages
          = some (conv0 ++ [⟨"user", u⟩, ⟨"system", k⟩, ⟨"assistant", text⟩]) := by
  intro env st conv0 u k text tokens elapsed hsess hlen hneeds hret hk hcomp
  have hb : (build_conversation_with_context env.retrieve env.now st.metrics conv0 u).conversation
      = conv0 ++ [⟨"user", u⟩, ⟨"system", k⟩] := by
    simp [build_conversation_with_context, hneeds, hret, hk]
  have hrag : (build_conversation_with_context env.retrieve env.now st.metrics conv0 u).rag_content
      = some k := by
    simp [build_conversation_with_context, hneeds, hret, hk]
  refine ⟨hb, ?_, ?_⟩ <;>
  · unfold chat
    rw [if_neg (by omega), hsess]
    dsimp only
    unfold get_ai_response
    rw [hb, hrag, hcomp]
    try simp [add_assistant_response, List.append_assoc]

theorem rag_message_sent_and_persisted_witness :
    (build_conversation_with_context ragEnv.retrieve ragEnv.now ragState.metrics
        [⟨"system", "S1"⟩, ⟨"system", "S2"⟩] "Do you have laptops?").conversation
      = [⟨"system", "S1"⟩, ⟨"system", "S2"⟩]
          ++ [⟨"user", "Do you have laptops?"⟩, ⟨"system", "KNOWLEDGE"⟩] ∧
    (chat ragEnv ragState "Do you have laptops?").1 = .reply "Sure!" ∧
    (chat ragEnv ragState "Do you have laptops?").2.sessionMessages
      = some ([⟨"system", "S1"⟩, ⟨"system", "S2"⟩]
          ++ [⟨"user", "Do you have laptops?"⟩, ⟨"system", "KNOWLEDGE"⟩,
              ⟨"assistant", "Sure!"⟩]) :=
  rag_message_sent_and_persisted ragEnv ragState [⟨"system", "S1"⟩, ⟨"system", "S2"⟩]
    "Do you have laptops?" "KNOWLEDGE" "Sure!" 50 1 rfl (by decide) (by decide) rfl
    (by decide) rfl

/-- **C2**: when the completion provider fails, the turn is surfaced as the
single opaque service-unavailable outcome — but the failure is recorded TWICE
in the aggregate metrics (once in the except block of `get_ai_response`, once
more in `handle_internal_error`): the total-requests counter increases by
exactly 2, while the successful-requests, token, time, context-token, cost
and empty-retrieval accumulators are unchanged.  This contradicts the claim
(and the spec), which require exactly one recorded failed turn. -/
theorem completion_failure_double_counted :
    ∀ (env : ChatEnv) (st : ChatState) (u : String),
      (∀ ms, env.complete ms = .failure) →
      u.length ≤ 1000 →
      needs_rag_retrieval u = false →
      (chat env st u).1 = .serviceUnavailable ∧
      (chat env st u).2.metrics
        = { st.metrics with total_requests := st.metrics.total_requests + 2 } := by
  intro env st u hfail hlen hneeds
  have hb : build_conversation_with_context env.retrieve env.now st.metrics
      (match st.sessionMessages with
        | some ms => ms
        | none => initialize_conversation env.prompts) u
    = { conversation :=
          (match st.sessionMessages with
            | some ms => ms
            | none => initialize_conversation env.prompts) ++ [⟨"user", u⟩],
        rag_content := none, metrics := st.metrics } := by
    simp [build_conversation_with_context, hneeds]
  unfold chat
  rw [if_neg (by omega)]
  dsimp only
  rw [hb]
  unfold get_ai_response
  dsimp only
  rw [hfail]
  exact ⟨rfl, rfl⟩

theorem completion_failure_double_counted_witness :
    (chat downEnv freshState "Hi").1 = .serviceUnavailable ∧
    (chat downEnv freshState "Hi").2.metrics
      = { freshState.metrics with
          total_requests := freshState.metrics.total_requests + 2 } :=
  completion_failure_double_counted downEnv freshState "Hi" (fun ms => rfl) (by decide)
    (by decide)

/-- **C3**: for a session with no prior conversation, initialization yields a
conversation whose messages are exactly the two static system prompts — the
behavioural system prompt first, the guidelines prompt second — so every
message before any user or assistant turn has the system role; and any chat
turn started on an empty session persists a conversation whose first two
messages are those two prompts. -/
theorem initialize_conversation_static_prompts :
    (∀ prompts : String → String,
      initialize_conversation prompts
        = [⟨"system", prompts "sys_prompt.txt"⟩,
           ⟨"system", prompts "behaviour_guidelines.txt"⟩]) ∧
    (∀ prompts : String → String,
      ∀ m ∈ initialize_conversation prompts, m.role = "system") ∧
    (∀ (env : ChatEnv) (m : MetricsData) (u : String), u.length ≤ 1000 →
      (((chat env ⟨none, m⟩ u).2.sessionMessages).getD []).take 2
        = [⟨"system", env.prompts "sys_prompt.txt"⟩,
           ⟨"system", env.prompts "behaviour_guidelines.txt"⟩]) := by
  refine ⟨fun prompts => rfl, fun prompts m hm => ?_, chat_fresh_session_take_two⟩
  simp only [initialize_conversation, List.mem_cons, List.not_mem_nil, or_false] at hm
  rcases hm with h | h <;> subst h <;> rfl

theorem initialize_conversation_static_prompts_witness :
    (Message.mk "system" "P").role = "system" ∧
    (((chat downEnv ⟨none, defaultMetrics⟩ "Hi").2.sessionMessages).getD []).take 2
      = [⟨"system", "P"⟩, ⟨"system", "P"⟩] :=
  ⟨initialize_conversation_static_prompts.2.1 (fun _ => "P") ⟨"system", "P"⟩ (by decide),
   initialize_conversation_static_prompts.2.2 downEnv defaultMetrics "Hi" (by decide)⟩

/-- **C4**: the retrieval gate returns true exactly when the utterance
contains a question mark or its case-folded form contains one of the fixed
German/English interrogative, intent or product words; in particular it
returns true for every utterance containing a question mark and false for
every utterance matching none of the conditions (greetings, thanks). -/
theorem needs_retrieval_characterization :
    (∀ u, needs_rag_retrieval u = needsRetrievalSpec u) ∧
    (∀ u, strContains u "?" = true → needs_rag_retrieval u = true) ∧
    (∀ u, needsRetrievalSpec u = false → needs_rag_retrieval u = false) := by
  have h1 : ∀ u, needs_rag_retrieval u = needsRetrievalSpec u := by
    intro u
    simp [needs_rag_retrieval, needsRetrievalSpec, List.any_append, Bool.or_assoc]
  refine ⟨h1, fun u hq => ?_, fun u hf => by rw [h1]; exact hf⟩
  simp [needs_rag_retrieval, hq]

theorem needs_retrieval_characterization_witness :
    needs_rag_retrieval "Hello?" = true ∧ needs_rag_retrieval "hello" = false :=
  ⟨needs_retrieval_characterization.2.1 "Hello?" (by decide),
   needs_retrieval_characterization.2.2 "hello" (by decide)⟩

/-- **C5**: from any aggregate-metrics state, recording one successful turn
with 100 tokens and 1.0 second elapsed increases total-requests by 1,
successful-requests by 1 and total tokens by 100, and adds a per-turn cost of
tokens divided by one million times the average of the two per-million
prices; starting from the all-zero default state, the summary then reports an
average of 100 tokens per conversation. -/
theorem record_success_increments :
    (∀ (tok : String → ℕ) (d : MetricsData) (msgs : Option (List Message)) (rag : Option String),
      (track_metrics_v1_1 tok 1 100 msgs rag true d).total_requests = d.total_requests + 1 ∧
      (track_metrics_v1_1 tok 1 100 msgs rag true d).successful_requests
          = d.successful_requests + 1 ∧
      (track_metrics_v1_1 tok 1 100 msgs rag true d).total_conversation_tokens
          = d.total_conversation_tokens + 100 ∧
      (track_metrics_v1_1 tok 1 100 msgs rag true d).total_cost
          = d.total_cost + ((100 : ℚ) / 1000000) * ((0.150 + 0.600) / 2)) ∧
    (∀ tok : String → ℕ,
      (get_metrics_summary_v1_1
          (track_metrics_v1_1 tok 1 100 none none true
            defaultMetrics)).average_tokens_per_conversation = 100) := by
  constructor
  · intro tok d msgs rag
    refine ⟨rfl, rfl, rfl, ?_⟩
    show d.total_cost + ((100 : ℕ) : ℚ) / 1000000 * ((0.150 + 0.600) / 2)
        = d.total_cost + (100 : ℚ) / 1000000 * ((0.150 + 0.600) / 2)
    norm_num
  · intro tok
    norm_num [get_metrics_summary_v1_1, track_metrics_v1_1, defaultMetrics, pyRound,
      roundHalfEven]

/-- **C6**: every `track_empty_retrieval_v1_1` call increments the
empty-retrieval counter by exactly 1 and appends one query/timestamp entry
whose query equals the utterance, evicting the oldest entries beyond the
1000-entry capacity; after any sequence of n calls from the default state the
log holds exactly the most recent min(n, 1000) entries in arrival order; and
an empty retrieval appends no retrieval message to the conversation — the
turn only gains the user message. -/
theorem empty_retrieval_logging_bounded :
    (∀ q ts d, (track_empty_retrieval_v1_1 q ts d).empty_retrieval_count
        = d.empty_retrieval_count + 1) ∧
    (∀ q ts d, (track_empty_retrieval_v1_1 q ts d).empty_retrieval_queries
        = (d.empty_retrieval_queries ++ [QueryEntry.mk q ts]).drop
            ((d.empty_retrieval_queries.length + 1) - 1000)) ∧
    (∀ entries : List QueryEntry,
      ((entries.foldl (fun acc e => track_empty_retrieval_v1_1 e.query e.timestamp acc)
          defaultMetrics).empty_retrieval_queries
        = entries.drop (entries.length - 1000)) ∧
      (entries.foldl (fun acc e => track_empty_retrieval_v1_1 e.query e.timestamp acc)
          defaultMetrics).empty_retrieval_count = entries.length) ∧
    (∀ retrieve now m conv u, needs_rag_retrieval u = true → retrieve u = none →
      (build_conversation_with_context retrieve now m conv u).conversation
          = conv ++ [⟨"user", u⟩] ∧
      (build_conversation_with_context retrieve now m conv u).metrics
          = track_empty_retrieval_v1_1 u now m) := by
  refine ⟨fun q ts d => rfl, fun q ts d => track_empty_retrieval_queries_eq ⟨q, ts⟩ d,
    fun entries => ?_, fun retrieve now m conv u hneeds hret => ?_⟩
  · obtain ⟨h1, h2⟩ := track_empty_retrieval_foldl entries defaultMetrics
      (by simp [defaultMetrics])
    constructor
    · rw [h1]; simp [defaultMetrics]
    · rw [h2]; simp [defaultMetrics]
  · constructor <;> simp [build_conversation_with_context, hneeds, hret]

theorem empty_retrieval_logging_bounded_witness :
    (build_conversation_with_context (fun _ => none) "t0" defaultMetrics []
        "Do you have laptops?").conversation = [] ++ [⟨"user", "Do you have laptops?"⟩] ∧
    (build_conversation_with_context (fun _ => none) "t0" defaultMetrics []
        "Do you have laptops?").metrics
      = track_empty_retrieval_v1_1 "Do you have laptops?" "t0" defaultMetrics :=
  empty_retrieval_logging_bounded.2.2.2 (fun _ => none) "t0" defaultMetrics []
    "Do you have laptops?" (by decide) rfl

/-- **C7**: every utterance longer than 1000 characters is rejected with the
input-too-long outcome while the whole server state — session conversation
and aggregate metrics — stays unchanged and no collaborator result is
consulted (the outcome is the same for every environment); an utterance of
exactly 1000 characters is not rejected by this check. -/
theorem long_input_rejected_before_anything :
    (∀ env st u, u.length > 1000 → chat env st u = (.messageTooLong, st)) ∧
    (∀ env st u, u.length = 1000 → (chat env st u).1 ≠ .messageTooLong) := by
  constructor
  · intro env st u hu
    unfold chat
    rw [if_pos hu]
  · intro env st u hu
    unfold chat
    rw [if_neg (by omega)]
    cases hres : get_ai_response env.tok env.complete
        (build_conversation_with_context env.retrieve env.now st.metrics
          (match st.sessionMessages with
            | some ms => ms
            | none => initialize_conversation env.prompts) u).metrics
        (build_conversation_with_context env.retrieve env.now st.metrics
          (match st.sessionMessages with
            | some ms => ms
            | none => initialize_conversation env.prompts) u).conversation
        (build_conversation_with_context env.retrieve env.now st.metrics
          (match st.sessionMessages with
            | some ms => ms
            | none => initialize_conversation env.prompts) u).rag_content with
    | ok p => simp [hres]
    | error m => simp [hres]

set_option maxRecDepth 10000 in
theorem long_input_rejected_before_anything_witness :
    chat downEnv freshState longMessage = (.messageTooLong, freshState) ∧
    (chat downEnv freshState okMessage).1 ≠ .messageTooLong :=
  ⟨long_input_rejected_before_anything.1 downEnv freshState longMessage (by decide),
   long_input_rejected_before_anything.2 downEnv freshState okMessage (by decide)⟩

/-- **C8**: one `build_conversation_with_context` call appends exactly one
user message and at most one retrieval system message and never mutates or
removes an earlier message — the input conversation is a prefix of the
result, also across repeated calls with different utterances — and
`add_assistant_response` only appends one assistant message. -/
theorem build_conversation_appends_only :
    (∀ retrieve now m conv u,
      (build_conversation_with_context retrieve now m conv u).conversation
          = conv ++ [⟨"user", u⟩] ∨
      ∃ k, (build_conversation_with_context retrieve now m conv u).conversation
          = conv ++ [⟨"user", u⟩, ⟨"system", k⟩]) ∧
    (∀ retrieve now m conv u,
      conv <+: (build_conversation_with_context retrieve now m conv u).conversation) ∧
    (∀ retrieve now m conv u₁ u₂,
      (build_conversation_with_context retrieve now m conv u₁).conversation <+:
        (build_conversation_with_context retrieve now
          ((build_conversation_with_context retrieve now m conv u₁).metrics)
          ((build_conversation_with_context retrieve now m conv u₁).conversation)
          u₂).conversation) ∧
    (∀ conv r, add_assistant_response conv r = conv ++ [⟨"assistant", r⟩]) :=
  ⟨build_conversation_cases,
   build_conversation_prefix,
   fun _ _ _ _ _ _ => build_conversation_prefix _ _ _ _ _,
   fun _ _ => rfl⟩

/-- **C9**: keyword matching in `needs_rag_retrieval` is substring
containment on the lowercased utterance, not word-boundary matching: the
single-word utterance "showcase" contains no question mark, no space and is
itself no member of any indicator list, yet the gate fires (it contains the
English word "how" as a substring). -/
theorem keyword_matching_is_substring :
    needs_rag_retrieval "showcase" = true ∧
    strContains "showcase" "?" = false ∧
    strContains "showcase" " " = false ∧
    german_indicators.contains "showcase" = false ∧
    english_indicators.contains "showcase" = false ∧
    product_indicators.contains "showcase" = false := by
  decide

/-- **C10**: under exact arithmetic the v1.0 and v1.1 average-cost
computations agree: for every non-empty sequence of successful turns, the
v1.0 summary cost — derived from the token total at summary time — equals the
v1.1 summary cost — accumulated per turn at record time. -/
theorem average_cost_v10_v11_equiv :
    ∀ (tok : String → ℕ) (ts : List ℕ), ts ≠ [] →
      (get_metrics_summary
          (ts.foldl (fun acc t => track_metrics 0 t true acc)
            defaultMetricsV10)).avg_cost_per_conversation
        = (get_metrics_summary_v1_1
            (ts.foldl (fun acc t => track_metrics_v1_1 tok 0 t none none true acc)
              defaultMetrics)).average_cost_per_conversation := by
  intro tok ts hne
  have hn : 0 < ts.length := List.length_pos.mpr hne
  obtain ⟨h10s, h10t⟩ := foldl_track_v10_totals ts defaultMetricsV10
  obtain ⟨h11s, h11c⟩ := foldl_track_v11_totals tok ts defaultMetrics
  rw [show defaultMetricsV10.total_succ_requests = 0 from rfl] at h10s
  rw [show defaultMetricsV10.total_tokens = 0 from rfl] at h10t
  rw [show defaultMetrics.successful_requests = 0 from rfl] at h11s
  rw [show defaultMetrics.total_cost = 0 from rfl] at h11c
  rw [Nat.zero_add] at h10s h11s
  rw [Nat.zero_add] at h10t
  rw [zero_add] at h11c
  unfold get_metrics_summary get_metrics_summary_v1_1
  rw [h10s, h10t, h11s, h11c, if_pos hn, if_pos hn]
  dsimp only
  congr 1
  push_cast
  ring

theorem average_cost_v10_v11_equiv_witness :
    (get_metrics_summary
        (([100, 200] : List ℕ).foldl (fun acc t => track_metrics 0 t true acc)
          defaultMetricsV10)).avg_cost_per_conversation
      = (get_metrics_summary_v1_1
          (([100, 200] : List ℕ).foldl
            (fun acc t => track_metrics_v1_1 String.length 0 t none none true acc)
            defaultMetrics)).average_cost_per_conversation :=
  average_cost_v10_v11_equiv String.length [100, 200] (by simp)
